import Mathlib

/-!
Shallow embedding of the authentication/session core of the `backend`
repository (Express + Mongoose video-platform backend), covering
`src/controllers/user.controller.js`, `src/models/subscriber.model.js`
and `src/utils/asyncHandler.js`.

The user model file (`user.model.js`) is not part of the sources; the
definitions that stand in for it are marked `Modelled from the spec:` and
follow the spec's Credential Store / Password Hasher / Token Issuer
contracts (spec sections 4.1-4.3).
-/

namespace Backend

abbrev UserId := Nat

def isWsChar (c : Char) : Bool :=
  c == ' ' || c == '\t' || c == '\n' || c == '\r'

/-- JavaScript `String.prototype.trim`: strips leading and trailing
whitespace. -/
def jsTrim (s : String) : String :=
  String.mk (((s.data.dropWhile isWsChar).reverse.dropWhile isWsChar).reverse)

def lowerChar (c : Char) : Char :=
  if 'A' ≤ c && c ≤ 'Z' then Char.ofNat (c.toNat + 32) else c

/-- JavaScript `String.prototype.toLowerCase` (ASCII range). -/
def jsToLower (s : String) : String :=
  String.mk (s.data.map lowerChar)

/-- Modelled from the spec: the Token Issuer's refresh-token signing secret
(`process.env.REFRESH_TOKEN_SECRET`), distinct from the access secret. -/
def REFRESH_TOKEN_SECRET : String := "refresh-secret"

/-- Modelled from the spec: the Token Issuer's access-token signing secret
(`process.env.ACCESS_TOKEN_SECRET`), distinct from the refresh secret. -/
def ACCESS_TOKEN_SECRET : String := "access-secret"

/-- Modelled from the spec: operator-configured refresh-token lifetime
(long expiry, days-to-weeks). -/
def REFRESH_TOKEN_EXPIRY : Nat := 864000

/-- Modelled from the spec: operator-configured access-token lifetime
(short expiry, minutes-to-hours). -/
def ACCESS_TOKEN_EXPIRY : Nat := 3600

/-- A signed JWT: payload (`_id` subject, issued-at, expiry) plus the secret
it was signed with; two JWT strings are equal exactly when payload and
signing secret agree. -/
structure Token where
  sub : UserId
  iat : Nat
  exp : Nat
  secret : String
deriving DecidableEq, Repr

inductive JwtError where
  | expired
  | invalidSignature
deriving DecidableEq, Repr

def jwtErrorMessage : JwtError → String
  | .expired => "jwt expired"
  | .invalidSignature => "invalid signature"

/-- `jwt.verify(token, secret)` from the jsonwebtoken library: rejects a token
signed with a different secret, rejects an expired token, and otherwise
returns the decoded payload. -/
def jwtVerify (tok : Token) (secret : String) (now : Nat) : Except JwtError Token :=
  if tok.secret ≠ secret then .error .invalidSignature
  else if tok.exp ≤ now then .error .expired
  else .ok tok

/-- A persisted user document. `password` holds the bcrypt digest;
`refreshToken` is the currently stored refresh token, `none` when the field
is unset (`$unset` on logout, or never set). -/
structure User where
  id : UserId
  username : String
  email : String
  fullName : String
  password : String
  avatar : String
  coverImage : String
  refreshToken : Option Token
deriving DecidableEq, Repr

/-- A subscription document (`subscriber.model.js`): the schema defines
exactly the fields `subscriber` and `subscribedToChannel`. -/
structure Subscription where
  subscriber : UserId
  subscribedToChannel : UserId
deriving DecidableEq, Repr

/-- Database state: the users and subscriptions collections, plus a logical
clock supplying the current time for token issuance and verification. -/
structure DB where
  users : List User
  subscriptions : List Subscription
  clock : Nat
deriving DecidableEq, Repr

def DB.findById (db : DB) (uid : UserId) : Option User :=
  db.users.find? (fun u => u.id == uid)

/-- Persisting `user.refreshToken = tok; user.save()` (or the `$unset`
update): rewrites the matching user document's `refreshToken` field. -/
def DB.setRefreshToken (db : DB) (uid : UserId) (tok : Option Token) : DB :=
  { db with
    users := db.users.map (fun u => if u.id == uid then { u with refreshToken := tok } else u) }

/-- An `ApiError(statusCode, message)` as thrown by the controllers. -/
structure ApiError where
  statusCode : Nat
  message : String
deriving DecidableEq, Repr

/-- Modelled from the spec: `user.generateAccessToken()` from the missing
`user.model.js` — mints a short-lived token carrying the subject's id,
signed with the access secret (Token Issuer, spec 4.3). -/
def generateAccessToken (uid : UserId) (now : Nat) : Token :=
  { sub := uid, iat := now, exp := now + ACCESS_TOKEN_EXPIRY, secret := ACCESS_TOKEN_SECRET }

/-- Modelled from the spec: `user.generateRefreshToken()` from the missing
`user.model.js` — mints a long-lived token carrying the subject's id,
signed with the refresh secret (Token Issuer, spec 4.3). -/
def generateRefreshToken (uid : UserId) (now : Nat) : Token :=
  { sub := uid, iat := now, exp := now + REFRESH_TOKEN_EXPIRY, secret := REFRESH_TOKEN_SECRET }

/-- `generateAccessAndRefreshToken(userId)` (user.controller.js 135-169):
looks the user up, mints both tokens, stores the refresh token on the user
document and saves it. The 404 thrown inside its `try` when the user is
missing is re-wrapped by its own `catch` as a 500 carrying the same message.
The clock advances past the issuance instant, modelling time strictly
increasing between requests. -/
def generateAccessAndRefreshToken (db : DB) (userId : UserId) :
    Except ApiError (DB × Token × Token) :=
  match db.findById userId with
  | none => .error ⟨500, "User not found"⟩
  | some user =>
    let accessToken := generateAccessToken user.id db.clock
    let refreshToken := generateRefreshToken user.id db.clock
    let db' := { db.setRefreshToken user.id (some refreshToken) with clock := db.clock + 1 }
    .ok (db', accessToken, refreshToken)

inductive RefreshTryError where
  | jwtErr (e : JwtError)
  | apiErr (e : ApiError)
deriving DecidableEq, Repr

/-- The `error?.message` the catch block of `refreshAccessToken` reads. -/
def RefreshTryError.message : RefreshTryError → String
  | .jwtErr e => jwtErrorMessage e
  | .apiErr e => e.message

/-- The body of the `try` block of `refreshAccessToken`
(user.controller.js 316-356): verify the token, look up the decoded
subject, compare against the stored refresh token
(`user?.refreshToken !== incomingRefreshToken`), then rotate. -/
def refreshTryBlock (db : DB) (tok : Token) : Except RefreshTryError (DB × Token × Token) :=
  match jwtVerify tok REFRESH_TOKEN_SECRET db.clock with
  | .error e => .error (.jwtErr e)
  | .ok decoded =>
    match db.findById decoded.sub with
    | none => .error (.apiErr ⟨401, "User not found"⟩)
    | some user =>
      if user.refreshToken ≠ some tok then
        .error (.apiErr ⟨401, "Refresh token is expired or invalid"⟩)
      else
        match generateAccessAndRefreshToken db user.id with
        | .error e => .error (.apiErr e)
        | .ok r => .ok r

/-- `refreshAccessToken` (user.controller.js 302-363): a missing incoming
token is a 401 thrown before the `try`; every error raised inside the `try`
— including the `ApiError(401)`s it itself throws — is caught and re-thrown
as `ApiError(500, error?.message)`. -/
def refreshAccessToken (db : DB) (incoming : Option Token) :
    Except ApiError (DB × Token × Token) :=
  match incoming with
  | none => .error ⟨401, "Unauthorized access"⟩
  | some tok =>
    match refreshTryBlock db tok with
    | .ok r => .ok r
    | .error e => .error ⟨500, e.message⟩

/-- Modelled from the spec: the Password Hasher's one-way `hash` (bcrypt
pre-save hook in the missing `user.model.js`, spec 4.2). -/
def bcryptHash (plaintext : String) : String := "bcrypt$" ++ plaintext

/-- Modelled from the spec: `user.isPasswordCorrect(plaintext)` from the
missing `user.model.js` — bcrypt verification against the stored digest. -/
def isPasswordCorrect (user : User) (plaintext : String) : Bool :=
  bcryptHash plaintext == user.password

/-- The user as returned after `.select("-password -refreshToken")`: the
projection dropping the password digest and the refresh token. -/
structure PublicUser where
  id : UserId
  username : String
  email : String
  fullName : String
  avatar : String
  coverImage : String
deriving DecidableEq, Repr

def User.toPublic (u : User) : PublicUser :=
  { id := u.id, username := u.username, email := u.email, fullName := u.fullName,
    avatar := u.avatar, coverImage := u.coverImage }

/-- `User.findOne({$or: [{username}, {email}]})`. Modelled from the spec for
the normalization: the missing `user.model.js` declares `username` and
`email` case-normalized to lowercase, so the schema cast lowercases the
query values before comparison (spec section 3 and 4.1); a branch whose
request value is undefined matches nothing. -/
def findOneByUsernameOrEmail (db : DB) (uname : Option String) (email : Option String) :
    Option User :=
  db.users.find? (fun u =>
    (match uname with
     | some un => u.username == jsToLower un
     | none => false)
    ||
    (match email with
     | some em => u.email == jsToLower em
     | none => false))

/-- `loginUser` (user.controller.js 184-243): requires a username or email,
looks the user up, verifies the password, issues and persists fresh tokens,
and returns the sanitized user plus both tokens. -/
def loginUser (db : DB) (uname : Option String) (email : Option String) (password : String) :
    Except ApiError (DB × Option PublicUser × Token × Token) :=
  if uname.isNone && email.isNone then .error ⟨400, "username or email is required"⟩
  else
    match findOneByUsernameOrEmail db uname email with
    | none => .error ⟨404, "User does not exist!"⟩
    | some user =>
      if !(isPasswordCorrect user password) then .error ⟨401, "Invalid user credentials!"⟩
      else
        match generateAccessAndRefreshToken db user.id with
        | .error e => .error e
        | .ok (db', accessToken, refreshToken) =>
          .ok (db', (db'.findById user.id).map User.toPublic, accessToken, refreshToken)

/-- `logoutUser` (user.controller.js 257-284): `findByIdAndUpdate` with
`$unset: { refreshToken: 1 }` — the stored refresh token field is removed. -/
def logoutUser (db : DB) (uid : UserId) : DB :=
  db.setRefreshToken uid none

/-- The body of a registration request: each text field and each uploaded
file may be absent (`undefined`). -/
structure RegisterRequest where
  fullName : Option String
  username : Option String
  email : Option String
  password : Option String
  avatarFile : Option String
  coverImageFile : Option String
deriving DecidableEq, Repr

/-- The per-field test of registerUser's validation,
`(field) => field?.trim() === ""`: true only when the field is present and
trims to the empty string; on a missing field the optional chaining yields
undefined, and `undefined === ""` is false. -/
def blankWhenPresent (field : Option String) : Bool :=
  match field with
  | some s => jsTrim s == ""
  | none => false

def freshId (db : DB) : UserId :=
  (db.users.map User.id).foldr max 0 + 1

/-- `registerUser` (user.controller.js 32-117), with the external media
upload passed in as the collaborator function `upload` (cloudinary.js
returns the hosted URL on success and null on failure). Steps in source
order: the blank-field check, the duplicate lookup, the avatar-presence
check, the uploads, the avatar-upload null check, reading
`coverImageCloudinary.url` (a TypeError — surfaced as a 500 — when the
cover upload returned null), and `User.create`. Modelled from the spec for
`User.create`: the missing `user.model.js` marks the identity and password
fields required and case-normalizes `email`, so a create with a missing
required field fails database validation — an error that is no `ApiError`
and surfaces as a 500 — and the pre-save hook hashes the password. The
final `findById(user._id).select("-password -refreshToken")` is the
sanitizing projection of the just-created document. -/
def registerUser (upload : String → Option String) (db : DB) (req : RegisterRequest) :
    Except ApiError (DB × PublicUser) :=
  if [req.fullName, req.username, req.email, req.password].any blankWhenPresent then
    .error ⟨400, "All fields are required"⟩
  else
    match findOneByUsernameOrEmail db req.username req.email with
    | some _ => .error ⟨409, "User with email or username already Exists"⟩
    | none =>
      match req.avatarFile with
      | none => .error ⟨400, "Avatar field is required"⟩
      | some avatarPath =>
        match upload avatarPath with
        | none => .error ⟨500, "Something went wrong while uploading Avatar"⟩
        | some avatarUrl =>
          match req.coverImageFile.map upload with
          | some none => .error ⟨500, "Cannot read properties of null (reading url)"⟩
          | coverResult =>
            let coverUrl :=
              match coverResult with
              | some (some u) => u
              | _ => ""
            match req.fullName, req.username, req.email, req.password with
            | some fullName, some uname, some email, some password =>
              let newUser : User :=
                { id := freshId db, username := jsToLower uname, email := jsToLower email,
                  fullName := fullName, password := bcryptHash password,
                  avatar := avatarUrl, coverImage := coverUrl, refreshToken := none }
              .ok ({ db with users := db.users ++ [newUser] }, newUser.toPublic)
            | _, _, _, _ => .error ⟨500, "User validation failed"⟩

/-- Field access by name on a subscription document, the way `$lookup`'s
`foreignField` resolves it: a field the schema does not define is missing,
i.e. null. -/
def Subscription.getField (s : Subscription) : String → Option UserId
  | "subscriber" => some s.subscriber
  | "subscribedToChannel" => some s.subscribedToChannel
  | _ => none

/-- `$lookup` from the subscriptions collection: keeps the documents whose
`foreignField` value equals the local `_id`; a missing foreignField is null
and never equal to an actual id. -/
def lookupSubscriptions (subs : List Subscription) (foreignField : String) (localId : UserId) :
    List Subscription :=
  subs.filter (fun s => s.getField foreignField == some localId)

/-- The document produced by the channel-profile aggregation's `$project`
stage. -/
structure ChannelProfile where
  fullName : String
  username : String
  subscribersCount : Nat
  channelsSubscribedToCount : Nat
  isSubscribed : Bool
  avatar : String
  coverImage : String
  email : String
deriving DecidableEq, Repr

/-- `getUserChannelProfile` (user.controller.js 574-654): matches the user
by lowercased username, `$lookup`s the subscriptions collection with
`foreignField: "channel"` into `subscribers` and with
`foreignField: "subscriber"` into `subscribedTo`, takes `$size` of each,
and sets `isSubscribed` by `$in` of the viewer's id over
`subscribers.subscriber` (null when no viewer is authenticated). -/
def getUserChannelProfile (db : DB) (usernameParam : String) (viewer : Option UserId) :
    Except ApiError ChannelProfile :=
  if jsTrim usernameParam == "" then .error ⟨400, "username is missing"⟩
  else
    match db.users.find? (fun u => u.username == jsToLower usernameParam) with
    | none => .error ⟨404, "channel does not exists"⟩
    | some u =>
      let subscribers := lookupSubscriptions db.subscriptions "channel" u.id
      let subscribedTo := lookupSubscriptions db.subscriptions "subscriber" u.id
      let isSubscribed :=
        match viewer with
        | some v => (subscribers.map Subscription.subscriber).contains v
        | none => false
      .ok { fullName := u.fullName, username := u.username,
            subscribersCount := subscribers.length,
            channelsSubscribedToCount := subscribedTo.length,
            isSubscribed := isSubscribed,
            avatar := u.avatar, coverImage := u.coverImage, email := u.email }

/-- A minimal promise model: `Promise.resolve(v)` is a promise already
fulfilled with `v`; extra arguments to `Promise.resolve` are ignored, and a
promise fulfilled with a plain value never rejects. -/
inductive Promise (α : Type) where
  | fulfilled (value : α)
  | rejected (error : String)
deriving DecidableEq, Repr

def promiseResolve {α : Type} (v : α) : Promise α := .fulfilled v

/-- `p.catch(handler)`: the handler runs exactly when the promise is
rejected; the result records whether it did. -/
def promiseCatch {α β : Type} (p : Promise α) (handler : String → β) : Option β :=
  match p with
  | .fulfilled _ => none
  | .rejected e => some (handler e)

/-- An opaque incoming request, as passed to a middleware. -/
structure Req where
  body : String
deriving DecidableEq, Repr

/-- What a run of the inner wrapper did: how many times it invoked the
wrapped request handler and how many times it invoked `next`. -/
structure WrapperOutcome where
  handlerInvocations : Nat
  nextInvocations : Nat
deriving DecidableEq, Repr

/-- The inner arrow function of `asyncHandler` (asyncHandler.js 2-4). Its
body is `Promise.resolve(req, res, next).catch((error) => next(error))`: it
resolves with `req` (the extra arguments are ignored), never mentions
`requestHandler`, and the catch callback — the only call site of `next` —
runs only on rejection, which a fulfilled promise never produces. -/
def innerWrapper (requestHandler : Req → Unit) (req : Req) : WrapperOutcome :=
  match promiseCatch (promiseResolve req) (fun _ => ()) with
  | none => { handlerInvocations := 0, nextInvocations := 0 }
  | some _ => { handlerInvocations := 0, nextInvocations := 1 }

/-- `asyncHandler` (asyncHandler.js 1-5): the outer arrow function's body is
a block statement that constructs the inner wrapper but contains no return
statement, so the call evaluates to undefined (`none`). -/
def asyncHandler (requestHandler : Req → Unit) : Option (Req → WrapperOutcome) :=
  let _wrapper := innerWrapper requestHandler
  none

/-! Concrete fixtures used by counterexamples and witnesses. -/

def userAlice : User :=
  { id := 1, username := "alice", email := "alice@example.com", fullName := "Alice Doe",
    password := bcryptHash "alicepw", avatar := "alice.png", coverImage := "",
    refreshToken := some (generateRefreshToken 1 3) }

def dbAlice : DB :=
  { users := [userAlice],
    subscriptions := [{ subscriber := 2, subscribedToChannel := 1 }],
    clock := 5 }

/-- A refresh token for Alice from an earlier rotation: validly signed, not
expired, but no longer the stored one. -/
def staleAliceToken : Token := generateRefreshToken 1 0

def dbEmpty : DB := { users := [], subscriptions := [], clock := 0 }

/-- A media-upload collaborator that succeeds. -/
def uploadOk : String → Option String := fun p => some ("https://media.example/" ++ p)

/-- A registration request with the password field entirely absent. -/
def reqMissingPassword : RegisterRequest :=
  { fullName := some "John Doe", username := some "johnny", email := some "john@example.com",
    password := none, avatarFile := some "tmp/avatar.png", coverImageFile := none }

/-! Helper lemmas. -/

theorem findById_setRefreshToken (db : DB) (uid : UserId) (tok : Option Token) :
    (db.setRefreshToken uid tok).findById uid =
      (db.findById uid).map (fun u => { u with refreshToken := tok }) := by
  unfold DB.setRefreshToken DB.findById
  rw [List.find?_map]
  have hpred : ((fun u : User => u.id == uid) ∘
      (fun u : User => if u.id == uid then { u with refreshToken := tok } else u)) =
      (fun u : User => u.id == uid) := by
    funext u
    by_cases h : u.id = uid
    · simp [h]
    · simp [h]
  rw [hpred]
  cases hfind : db.users.find? (fun u : User => u.id == uid) with
  | none => rfl
  | some a =>
    have ha := List.find?_some hfind
    simp only [Option.map_some']
    rw [if_pos ha]

theorem findById_clock (db : DB) (c : Nat) (uid : UserId) :
    ({ db with clock := c } : DB).findById uid = db.findById uid := rfl

theorem jwtVerify_ok_eq {t d : Token} {s : String} {n : Nat}
    (h : jwtVerify t s n = .ok d) : d = t := by
  unfold jwtVerify at h
  split at h
  · exact absurd h (by simp)
  · split at h
    · exact absurd h (by simp)
    · cases h; rfl

theorem findById_id_eq {db : DB} {uid : UserId} {u : User}
    (h : db.findById uid = some u) : u.id = uid := by
  have := List.find?_some h
  simpa using this

theorem generateTokens_of_found {db : DB} {uid : UserId} {user : User}
    (h : db.findById uid = some user) :
    generateAccessAndRefreshToken db uid =
      .ok ({ db.setRefreshToken user.id (some (generateRefreshToken user.id db.clock)) with
               clock := db.clock + 1 },
           generateAccessToken user.id db.clock,
           generateRefreshToken user.id db.clock) := by
  unfold generateAccessAndRefreshToken
  rw [h]

theorem findOne_none_none (db : DB) : findOneByUsernameOrEmail db none none = none := by
  unfold findOneByUsernameOrEmail
  apply List.find?_eq_none.mpr
  intro x _
  simp

theorem refresh_wraps_jwt_error (db : DB) (tok : Token) (e : JwtError)
    (h : jwtVerify tok REFRESH_TOKEN_SECRET db.clock = .error e) :
    refreshAccessToken db (some tok) =
      .error { statusCode := 500, message := jwtErrorMessage e } := by
  have h2 : refreshTryBlock db tok = .error (.jwtErr e) := by
    unfold refreshTryBlock
    rw [h]
  simp only [refreshAccessToken, h2]
  rfl

theorem refresh_wraps_mismatch (db : DB) (tok : Token) (user : User)
    (hv : jwtVerify tok REFRESH_TOKEN_SECRET db.clock = .ok tok)
    (hfind : db.findById tok.sub = some user)
    (hne : user.refreshToken ≠ some tok) :
    refreshAccessToken db (some tok) =
      .error { statusCode := 500, message := "Refresh token is expired or invalid" } := by
  have h2 : refreshTryBlock db tok =
      .error (.apiErr ⟨401, "Refresh token is expired or invalid"⟩) := by
    unfold refreshTryBlock
    rw [hv]
    dsimp only
    rw [hfind]
    dsimp only
    rw [if_pos hne]
  simp only [refreshAccessToken, h2]
  rfl

/-! Claim theorems. -/

/-- C3: for every request handler `f`, `asyncHandler f` evaluates to
undefined rather than to a middleware function; the inner wrapper never
invokes `f` (its outcome does not depend on `f` at all) and never forwards a
rejection to `next`. -/
theorem C3_asyncHandler_returns_undefined :
    (∀ f : Req → Unit, asyncHandler f = none)
    ∧ (∀ (f g : Req → Unit) (req : Req), innerWrapper f req = innerWrapper g req)
    ∧ (∀ (f : Req → Unit) (req : Req),
        (innerWrapper f req).handlerInvocations = 0 ∧ (innerWrapper f req).nextInvocations = 0) :=
  ⟨fun _ => rfl, fun _ _ _ => rfl, fun _ _ => ⟨rfl, rfl⟩⟩

/-- C7: whenever the Token Issuer's verification of the incoming refresh
token fails (bad signature or expired), `refreshAccessToken` surfaces the
failure as a 500 error carrying the verification failure's message — not as
any other status. -/
theorem C7_refresh_verification_failure_wrapped_500 (db : DB) (tok : Token) (e : JwtError)
    (h : jwtVerify tok REFRESH_TOKEN_SECRET db.clock = .error e) :
    refreshAccessToken db (some tok) =
      .error { statusCode := 500, message := jwtErrorMessage e } :=
  refresh_wraps_jwt_error db tok e h

/-- C7 witness: a token signed with the wrong secret is rejected with the
wrapped 500. -/
theorem C7_refresh_verification_failure_wrapped_500_witness :
    refreshAccessToken dbEmpty (some { sub := 1, iat := 0, exp := 99999, secret := "wrong" }) =
      .error { statusCode := 500, message := jwtErrorMessage .invalidSignature } :=
  C7_refresh_verification_failure_wrapped_500 dbEmpty
    { sub := 1, iat := 0, exp := 99999, secret := "wrong" } .invalidSignature rfl

/-- C1: concrete run refuting the claimed 401. `staleAliceToken` carries a
valid signature and expiry at `dbAlice.clock`, its decoded subject exists,
and it differs from the stored refresh token — yet `refreshAccessToken`
answers 500 (the 401 thrown inside the `try` is re-wrapped by the `catch`),
not 401. -/
theorem C1_refresh_mismatch_answers_500 :
    jwtVerify staleAliceToken REFRESH_TOKEN_SECRET dbAlice.clock = .ok staleAliceToken
    ∧ dbAlice.findById staleAliceToken.sub = some userAlice
    ∧ userAlice.refreshToken ≠ some staleAliceToken
    ∧ refreshAccessToken dbAlice (some staleAliceToken) =
        .error { statusCode := 500, message := "Refresh token is expired or invalid" } := by
  refine ⟨rfl, rfl, by decide, rfl⟩

/-- C2: concrete run refuting the claimed subscriber count. `dbAlice` holds
exactly one Subscription document whose `subscribedToChannel` equals
Alice's id, yet `getUserChannelProfile` reports `subscribersCount = 0`: its
`$lookup` joins on the nonexistent field `channel` instead of
`subscribedToChannel`. -/
theorem C2_subscribersCount_misses_subscription_rows :
    (dbAlice.subscriptions.filter (fun s => s.subscribedToChannel == userAlice.id)).length = 1
    ∧ Except.map ChannelProfile.subscribersCount (getUserChannelProfile dbAlice "alice" none) =
        .ok 0 := by
  refine ⟨rfl, rfl⟩

/-- C4: concrete run refuting the claimed subscription flag. A Subscription
document with `subscriber = 2` and `subscribedToChannel = 1` exists, yet the
profile of user 1 viewed by user 2 reports `isSubscribed = false`, because
the `$in` test ranges over the (always empty) mis-joined `subscribers`
array. -/
theorem C4_isSubscribed_false_despite_subscription :
    ({ subscriber := 2, subscribedToChannel := 1 } : Subscription) ∈ dbAlice.subscriptions
    ∧ Except.map ChannelProfile.isSubscribed (getUserChannelProfile dbAlice "alice" (some 2)) =
        .ok false := by
  refine ⟨by decide, rfl⟩

/-- C9: concrete run refuting the claimed 400 on a missing field. With the
password absent from the request, `(field) => field?.trim() === ""` is
false, so the required-field check does not fire; registration proceeds
through the duplicate check and the uploads and then fails database
validation inside `User.create` — a non-400 error — instead of failing with
a 400 before any creation attempt. -/
theorem C9_missing_password_passes_blank_check :
    blankWhenPresent reqMissingPassword.password = false
    ∧ registerUser uploadOk dbEmpty reqMissingPassword =
        .error { statusCode := 500, message := "User validation failed" } := by
  refine ⟨rfl, rfl⟩

/-- C5: a successful `refreshAccessToken` replaces the stored refresh token
with the newly issued one, and a subsequent `refreshAccessToken` presenting
the previous (pre-rotation) token fails. The hypothesis `t.iat ≠ db.clock`
says the presented token was minted at an earlier instant than the rotation
(the new token's issued-at differs, so the two token strings differ). -/
theorem C5_refresh_rotates_and_invalidates_old
    (db : DB) (user : User) (t : Token)
    (hfind : db.findById t.sub = some user)
    (hstored : user.refreshToken = some t)
    (hverify : jwtVerify t REFRESH_TOKEN_SECRET db.clock = .ok t)
    (hiat : t.iat ≠ db.clock) :
    ∃ (db' : DB) (access newRefresh : Token),
      refreshAccessToken db (some t) = .ok (db', access, newRefresh)
      ∧ (db'.findById user.id).map User.refreshToken = some (some newRefresh)
      ∧ newRefresh ≠ t
      ∧ ∃ e, refreshAccessToken db' (some t) = .error e := by
  have huid : user.id = t.sub := findById_id_eq hfind
  have hfind2 : db.findById user.id = some user := by rw [huid]; exact hfind
  have hgen := generateTokens_of_found hfind2
  have htry : refreshTryBlock db t =
      .ok ({ db.setRefreshToken user.id (some (generateRefreshToken user.id db.clock)) with
               clock := db.clock + 1 },
           generateAccessToken user.id db.clock,
           generateRefreshToken user.id db.clock) := by
    unfold refreshTryBlock
    rw [hverify]
    dsimp only
    rw [hfind]
    dsimp only
    rw [if_neg (by rw [hstored]; simp), hgen]
  have hrun : refreshAccessToken db (some t) =
      .ok ({ db.setRefreshToken user.id (some (generateRefreshToken user.id db.clock)) with
               clock := db.clock + 1 },
           generateAccessToken user.id db.clock,
           generateRefreshToken user.id db.clock) := by
    simp only [refreshAccessToken, htry]
  have hne : generateRefreshToken user.id db.clock ≠ t := by
    intro hEq
    exact hiat (by rw [← hEq]; rfl)
  have hstored2 :
      ({ db.setRefreshToken user.id (some (generateRefreshToken user.id db.clock)) with
           clock := db.clock + 1 } : DB).findById user.id =
        some { user with refreshToken := some (generateRefreshToken user.id db.clock) } := by
    rw [findById_clock, findById_setRefreshToken, hfind2]
    rfl
  refine ⟨_, _, _, hrun, ?_, hne, ?_⟩
  · rw [hstored2]
    rfl
  · have hfind3 :
        ({ db.setRefreshToken user.id (some (generateRefreshToken user.id db.clock)) with
             clock := db.clock + 1 } : DB).findById t.sub =
          some { user with refreshToken := some (generateRefreshToken user.id db.clock) } := by
      rw [← huid]
      exact hstored2
    cases hv2 : jwtVerify t REFRESH_TOKEN_SECRET
        ({ db.setRefreshToken user.id (some (generateRefreshToken user.id db.clock)) with
             clock := db.clock + 1 } : DB).clock with
    | error e2 =>
      exact ⟨_, refresh_wraps_jwt_error _ t e2 hv2⟩
    | ok d =>
      have hd : d = t := jwtVerify_ok_eq hv2
      rw [hd] at hv2
      refine ⟨_, refresh_wraps_mismatch _ t
        { user with refreshToken := some (generateRefreshToken user.id db.clock) }
        hv2 hfind3 ?_⟩
      intro hEq
      injection hEq with hEq2
      exact hne hEq2

/-- C5 witness: Alice's stored token was minted at instant 3; refreshing at
instant 5 rotates it and the old token then fails. -/
theorem C5_refresh_rotates_and_invalidates_old_witness :
    ∃ (db' : DB) (access newRefresh : Token),
      refreshAccessToken dbAlice (some (generateRefreshToken 1 3)) = .ok (db', access, newRefresh)
      ∧ (db'.findById userAlice.id).map User.refreshToken = some (some newRefresh)
      ∧ newRefresh ≠ generateRefreshToken 1 3
      ∧ ∃ e, refreshAccessToken db' (some (generateRefreshToken 1 3)) = .error e :=
  C5_refresh_rotates_and_invalidates_old dbAlice userAlice (generateRefreshToken 1 3)
    rfl rfl rfl (by decide)

/-- C6: a registration attempt whose username or email equals a stored
user's identity up to letter casing — once it passes the blank-field check —
fails with the 409 conflict, because both sides of the duplicate comparison
are case-normalized to lowercase. -/
theorem C6_duplicate_identity_conflicts_regardless_of_casing
    (upload : String → Option String) (db : DB) (req : RegisterRequest) (stored : User)
    (hmem : stored ∈ db.users)
    (hblank : ([req.fullName, req.username, req.email, req.password].any blankWhenPresent) = false)
    (hdup : (∃ un, req.username = some un ∧ jsToLower un = stored.username)
          ∨ (∃ em, req.email = some em ∧ jsToLower em = stored.email)) :
    registerUser upload db req =
      .error { statusCode := 409, message := "User with email or username already Exists" } := by
  have hsome : (findOneByUsernameOrEmail db req.username req.email).isSome := by
    unfold findOneByUsernameOrEmail
    apply List.find?_isSome.mpr
    refine ⟨stored, hmem, ?_⟩
    rcases hdup with ⟨un, hu, hl⟩ | ⟨em, he, hl⟩
    · rw [hu]
      simp [hl]
    · rw [he]
      simp [hl]
  obtain ⟨u, hu⟩ := Option.isSome_iff_exists.mp hsome
  unfold registerUser
  rw [if_neg (by simp [hblank]), hu]

/-- C6 witness: registering `"ALICE"` while `"alice"` is stored conflicts. -/
theorem C6_duplicate_identity_conflicts_regardless_of_casing_witness :
    registerUser uploadOk dbAlice
      { fullName := some "Alice Two", username := some "ALICE", email := some "other@example.com",
        password := some "pw2", avatarFile := some "tmp/a.png", coverImageFile := none } =
      .error { statusCode := 409, message := "User with email or username already Exists" } :=
  C6_duplicate_identity_conflicts_regardless_of_casing uploadOk dbAlice
    { fullName := some "Alice Two", username := some "ALICE", email := some "other@example.com",
      password := some "pw2", avatarFile := some "tmp/a.png", coverImageFile := none }
    userAlice (by decide) rfl (Or.inl ⟨"ALICE", rfl, rfl⟩)

/-- C8: a successful login stores the refresh token it returns on the user's
record, and logout removes the stored refresh token field. -/
theorem C8_login_persists_refresh_and_logout_clears
    (db : DB) (uname email : Option String) (pw : String) (user : User)
    (hfound : findOneByUsernameOrEmail db uname email = some user)
    (hid : db.findById user.id = some user)
    (hpw : isPasswordCorrect user pw = true) :
    (∃ (db' : DB) (pu : Option PublicUser) (access refresh : Token),
        loginUser db uname email pw = .ok (db', pu, access, refresh)
        ∧ (db'.findById user.id).map User.refreshToken = some (some refresh))
    ∧ ∀ (d : DB) (u : User), d.findById u.id = some u →
        ((logoutUser d u.id).findById u.id).map User.refreshToken = some none := by
  constructor
  · have hguard : (uname.isNone && email.isNone) = false := by
      cases uname with
      | some _ => rfl
      | none =>
        cases email with
        | some _ => rfl
        | none =>
          rw [findOne_none_none] at hfound
          exact absurd hfound (by simp)
    have hgen := generateTokens_of_found hid
    have hlogin : loginUser db uname email pw =
        .ok ({ db.setRefreshToken user.id (some (generateRefreshToken user.id db.clock)) with
                 clock := db.clock + 1 },
             (({ db.setRefreshToken user.id (some (generateRefreshToken user.id db.clock)) with
                 clock := db.clock + 1 } : DB).findById user.id).map User.toPublic,
             generateAccessToken user.id db.clock,
             generateRefreshToken user.id db.clock) := by
      unfold loginUser
      rw [if_neg (by simp [hguard]), hfound]
      dsimp only
      rw [if_neg (by simp [hpw]), hgen]
    refine ⟨_, _, _, _, hlogin, ?_⟩
    rw [findById_clock, findById_setRefreshToken, hid]
    rfl
  · intro d u hdu
    unfold logoutUser
    rw [findById_setRefreshToken, hdu]
    rfl

/-- C8 witness: Alice logs in with her password; the stored token equals the
returned one, and logging out clears it. -/
theorem C8_login_persists_refresh_and_logout_clears_witness :
    (∃ (db' : DB) (pu : Option PublicUser) (access refresh : Token),
        loginUser dbAlice (some "Alice") none "alicepw" = .ok (db', pu, access, refresh)
        ∧ (db'.findById userAlice.id).map User.refreshToken = some (some refresh))
    ∧ ∀ (d : DB) (u : User), d.findById u.id = some u →
        ((logoutUser d u.id).findById u.id).map User.refreshToken = some none :=
  C8_login_persists_refresh_and_logout_clears dbAlice (some "Alice") none "alicepw" userAlice
    rfl rfl rfl

/-- C10: a valid registration — all four fields present and non-blank,
unique username/email, avatar provided and uploaded — succeeds, and what it
returns is the `-password -refreshToken` projection of the created record:
an object with no password-hash and no refresh-token field, invariant under
both. -/
theorem C10_valid_registration_returns_sanitized_user
    (upload : String → Option String) (db : DB) (req : RegisterRequest)
    (fn un em pw af url : String)
    (hfn : req.fullName = some fn) (hun : req.username = some un)
    (hem : req.email = some em) (hpw : req.password = some pw)
    (hblank : ([req.fullName, req.username, req.email, req.password].any blankWhenPresent) = false)
    (hnodup : findOneByUsernameOrEmail db req.username req.email = none)
    (havatar : req.avatarFile = some af)
    (hupload : upload af = some url)
    (hcover : req.coverImageFile = none ∨
        ∃ cf cu, req.coverImageFile = some cf ∧ upload cf = some cu) :
    ∃ (db' : DB) (created : User),
      registerUser upload db req = .ok (db', created.toPublic)
      ∧ db'.users = db.users ++ [created]
      ∧ created.password = bcryptHash pw
      ∧ created.refreshToken = none
      ∧ ∀ (pwd : String) (rt : Option Token),
          ({ created with password := pwd, refreshToken := rt } : User).toPublic =
            created.toPublic := by
  rcases hcover with hcov | ⟨cf, cu, hcf, hcu⟩
  · have hrun : registerUser upload db req =
        .ok ({ db with users := db.users ++
                 [{ id := freshId db, username := jsToLower un, email := jsToLower em,
                    fullName := fn, password := bcryptHash pw, avatar := url,
                    coverImage := "", refreshToken := none }] },
             ({ id := freshId db, username := jsToLower un, email := jsToLower em,
                fullName := fn, password := bcryptHash pw, avatar := url,
                coverImage := "", refreshToken := none } : User).toPublic) := by
      unfold registerUser
      rw [if_neg (by simp [hblank]), hnodup]
      dsimp only
      rw [havatar]
      dsimp only
      rw [hupload]
      dsimp only
      rw [hcov]
      dsimp only [Option.map_none']
      rw [hfn, hun, hem, hpw]
    exact ⟨_, _, hrun, rfl, rfl, rfl, fun _ _ => rfl⟩
  · have hrun : registerUser upload db req =
        .ok ({ db with users := db.users ++
                 [{ id := freshId db, username := jsToLower un, email := jsToLower em,
                    fullName := fn, password := bcryptHash pw, avatar := url,
                    coverImage := cu, refreshToken := none }] },
             ({ id := freshId db, username := jsToLower un, email := jsToLower em,
                fullName := fn, password := bcryptHash pw, avatar := url,
                coverImage := cu, refreshToken := none } : User).toPublic) := by
      unfold registerUser
      rw [if_neg (by simp [hblank]), hnodup]
      dsimp only
      rw [havatar]
      dsimp only
      rw [hupload]
      dsimp only
      rw [hcf]
      dsimp only [Option.map_some']
      rw [hcu]
      rw [hfn, hun, hem, hpw]
    exact ⟨_, _, hrun, rfl, rfl, rfl, fun _ _ => rfl⟩

/-- C10 witness: a concrete valid registration (with a cover image) whose
response is the sanitized projection of the created user. -/
theorem C10_valid_registration_returns_sanitized_user_witness :
    ∃ (db' : DB) (created : User),
      registerUser uploadOk dbEmpty
          { fullName := some "John Doe", username := some "Johnny",
            email := some "John@Example.com", password := some "hunter2",
            avatarFile := some "tmp/avatar.png", coverImageFile := some "tmp/cover.png" } =
        .ok (db', created.toPublic)
      ∧ db'.users = dbEmpty.users ++ [created]
      ∧ created.password = bcryptHash "hunter2"
      ∧ created.refreshToken = none
      ∧ ∀ (pwd : String) (rt : Option Token),
          ({ created with password := pwd, refreshToken := rt } : User).toPublic =
            created.toPublic :=
  C10_valid_registration_returns_sanitized_user uploadOk dbEmpty
    { fullName := some "John Doe", username := some "Johnny",
      email := some "John@Example.com", password := some "hunter2",
      avatarFile := some "tmp/avatar.png", coverImageFile := some "tmp/cover.png" }
    "John Doe" "Johnny" "John@Example.com" "hunter2" "tmp/avatar.png"
    "https://media.example/tmp/avatar.png"
    rfl rfl rfl rfl rfl rfl rfl rfl
    (Or.inr ⟨"tmp/cover.png", "https://media.example/tmp/cover.png", rfl, rfl⟩)

end Backend
